import Mathlib

/-!
Shallow embedding of the teacher-availability matching and session-lifecycle
subsystem of the clasify-connect repository.

Sources embedded here:
- `supabase/migrations/...sql`: table shapes (`teacher_availability` with
  `UNIQUE (teacher_id)`, `sessions`, `ratings` with `UNIQUE (session_id)` and
  `CHECK (rating >= 1 AND rating <= 5)`), row-level-security insert checks for
  `sessions` and `ratings`, and the `update_app_stats` trigger function.
- `src/components/dashboard/StudentDashboard.tsx`: `handleConnectToTeacher`
  (the claim operation: unconditional session insert, then availability delete).
- `src/components/dashboard/TeacherDashboard.tsx`: `toggleAvailability`
  (delete branch = withdraw; upsert branch = publish) and the appended
  `handle_new_user` trigger (role validation from signup metadata).
- The session view component (`Session`): the `endSession` update and the
  once-per-second timer effect that enforces the one-hour cap.

Timestamps are naturals (milliseconds where the code uses `Date.now()`,
seconds for elapsed time). Row ids are naturals; the database generates fresh
ids, modelled as explicit parameters. Fallible datastore writes return
`Except DbError DB`; the UI swallows errors, which is modelled by returning
the unchanged state alongside `none`.
-/

namespace ClasifyConnect

abbrev ProfileId := Nat
abbrev UserId := Nat
abbrev SubjectId := Nat
abbrev TopicId := Nat
abbrev SessionId := Nat

/-- `public.user_role` enum from the migration ('student', 'teacher'). -/
inductive Role where
  | student
  | teacher
deriving DecidableEq, Repr

/-- A row of `public.profiles`. -/
structure Profile where
  id : ProfileId
  user_id : UserId
  role : Role
  full_name : String
  avatar_url : Option String
  is_verified : Bool
deriving DecidableEq, Repr

/-- A row of `public.user_roles` (second migration). -/
structure UserRoleRow where
  user_id : UserId
  role : Role
deriving DecidableEq, Repr

/-- `public.session_status` enum. -/
inductive SessionStatus where
  | pending
  | active
  | completed
  | cancelled
deriving DecidableEq, Repr

/-- A row of `public.sessions`. Timestamps in milliseconds. -/
structure Session where
  id : SessionId
  student_id : ProfileId
  teacher_id : ProfileId
  subject_id : SubjectId
  topic_id : Option TopicId
  status : SessionStatus
  started_at : Option Nat
  ended_at : Option Nat
  duration_minutes : Option Nat
deriving DecidableEq, Repr

/-- A row of `public.teacher_availability`. The table carries
`UNIQUE (teacher_id)` and `is_available BOOLEAN DEFAULT true`. -/
structure Availability where
  id : Nat
  teacher_id : ProfileId
  subject_id : SubjectId
  topic_id : Option TopicId
  is_available : Bool
deriving DecidableEq, Repr

/-- A row of `public.ratings`, with `UNIQUE (session_id)` and
`CHECK (rating >= 1 AND rating <= 5)`. -/
structure Rating where
  id : Nat
  session_id : SessionId
  student_id : ProfileId
  teacher_id : ProfileId
  rating : Int
  comment : Option String
deriving DecidableEq, Repr

/-- The singleton `public.app_stats` row (`updated_at` omitted: no claim
mentions it). `average_rating` is the stored `DECIMAL(3,2)` value, an exact
rational with two decimal places. -/
structure AppStats where
  total_sessions : Nat
  average_rating : ℚ
deriving DecidableEq, Repr

/-- The relational state the embedded operations act on. -/
structure DB where
  profiles : List Profile
  user_roles : List UserRoleRow
  teacher_availability : List Availability
  sessions : List Session
  ratings : List Rating
  app_stats : AppStats
deriving DecidableEq, Repr

/-- Typed datastore failures surfaced to the embedded operations. -/
inductive DbError where
  | uniqueViolation
  | rlsViolation
  | fkViolation
  | checkViolation
deriving DecidableEq, Repr

/-! ## Availability Registry: withdraw and publish
(`toggleAvailability` in TeacherDashboard.tsx) -/

/-- The withdraw operation: the `isAvailable` branch of `toggleAvailability`
issues `DELETE FROM teacher_availability WHERE teacher_id = profile.id`,
executed by the owning teacher themselves — the caller the DELETE policy
"Teachers can delete their availability" admits — so every matching row is
deleted. A predicate delete succeeds even when it deletes zero rows. -/
def withdraw (teacherId : ProfileId) (db : DB) : DB :=
  { db with
    teacher_availability :=
      db.teacher_availability.filter (fun a => a.teacher_id ≠ teacherId) }

/-- The row-level DELETE policy "Teachers can delete their availability":
a row may be deleted only when
`EXISTS (SELECT 1 FROM profiles WHERE id = teacher_id AND user_id =
auth.uid() AND role = 'teacher')` — the row's teacher must be the calling
user's own profile and that profile must have role teacher. -/
def availabilityDeleteCheck (callerUserId : UserId) (a : Availability)
    (db : DB) : Bool :=
  db.profiles.any (fun p =>
    p.id = a.teacher_id ∧ p.user_id = callerUserId ∧ p.role = Role.teacher)

/-- A `DELETE FROM teacher_availability WHERE teacher_id = t` executed by an
arbitrary caller: only rows that both match the predicate and pass the
DELETE policy are removed; rows failing the policy are silently retained
(the statement still reports success, with zero rows affected). -/
def availabilityDeleteAs (caller : Profile) (teacherId : ProfileId)
    (db : DB) : DB :=
  { db with
    teacher_availability :=
      db.teacher_availability.filter (fun a =>
        ¬ (a.teacher_id = teacherId ∧
           availabilityDeleteCheck caller.user_id a db)) }

/-- The publish operation: the other branch of `toggleAvailability` issues
`upsert({ teacher_id, subject_id, topic_id, is_available: true })` with no
`onConflict` option. PostgREST then resolves conflicts on the primary key
`id`; since no `id` is supplied the database generates a fresh one
(`freshId`), so the statement is effectively
`INSERT ... ON CONFLICT (id) DO UPDATE`. When a row for the same teacher
already exists, the `UNIQUE (teacher_id)` constraint — which is not the
conflict target — rejects the insert with a unique violation, and the table
is unchanged. -/
def publish (freshId : Nat) (teacherId : ProfileId) (subjectId : SubjectId)
    (topicId : Option TopicId) (db : DB) : Except DbError DB :=
  if db.teacher_availability.any (fun a => a.teacher_id = teacherId) then
    .error .uniqueViolation
  else
    .ok { db with
          teacher_availability :=
            db.teacher_availability ++
              [{ id := freshId, teacher_id := teacherId,
                 subject_id := subjectId, topic_id := topicId,
                 is_available := true }] }

/-! ## Claim Coordinator (`handleConnectToTeacher` in StudentDashboard.tsx) -/

/-- The advertisement fields `handleConnectToTeacher` reads from its
`AvailableTeacher` argument: `teacher.profiles.id`, `teacher.subject_id`,
`teacher.topic_id`. This is the caller's snapshot of a row fetched earlier
by `fetchAvailableTeachers`. -/
structure TeacherSnapshot where
  teacher_profile_id : ProfileId
  subject_id : SubjectId
  topic_id : Option TopicId
deriving DecidableEq, Repr

/-- The RLS `WITH CHECK` of policy "Students can create sessions for
themselves only": `student_id = (SELECT id FROM profiles WHERE user_id =
auth.uid())`. It compares the inserted `student_id` with the caller's own
profile id; it performs no role check. -/
def sessionsInsertCheck (callerProfile : Profile) (s : Session) : Bool :=
  s.student_id = callerProfile.id

/-- `handleConnectToTeacher`: inserts a session row
`{ student_id: profile.id, teacher_id, subject_id, topic_id, status:
'active', started_at: now }` (no read of `teacher_availability` happens
first), and — only if the insert succeeded — issues
`DELETE FROM teacher_availability WHERE teacher_id = teacher.profiles.id`
as the caller and navigates to the session. That delete is subject to the
DELETE policy, which only lets the owning teacher remove availability
rows: invoked by a student it silently affects zero rows. On an insert
error the function silently does nothing, modelled as `(db, none)`. -/
def handleConnectToTeacher (profile : Profile) (teacher : TeacherSnapshot)
    (nowMs : Nat) (freshId : SessionId) (db : DB) : DB × Option SessionId :=
  let s : Session :=
    { id := freshId
      student_id := profile.id
      teacher_id := teacher.teacher_profile_id
      subject_id := teacher.subject_id
      topic_id := teacher.topic_id
      status := .active
      started_at := some nowMs
      ended_at := none
      duration_minutes := none }
  if sessionsInsertCheck profile s then
    let db1 : DB := { db with sessions := db.sessions ++ [s] }
    let db2 : DB := availabilityDeleteAs profile teacher.teacher_profile_id db1
    (db2, some freshId)
  else
    (db, none)

/-! ## Session Lifecycle Manager (`endSession` and the timer effect in the
Session view component) -/

/-- `endSession`: issues
`UPDATE sessions SET status='completed', ended_at=now, duration_minutes=
Math.floor(elapsedTime / 60) WHERE id = session.id`.
`elapsedTime` is the React state the invoking closure captured; the update
is filtered only by `id`, with no guard on the current status, so it
applies to a session in any state and overwrites any previously stored
`ended_at` and `duration_minutes`. -/
def endSession (elapsedTime : Nat) (nowMs : Nat) (sessionId : SessionId)
    (db : DB) : DB :=
  let duration := elapsedTime / 60
  { db with
    sessions := db.sessions.map (fun s =>
      if s.id = sessionId then
        { s with status := .completed, ended_at := some nowMs,
                 duration_minutes := some duration }
      else s) }

/-- One firing of the session timer interval (`setInterval(..., 1000)` in the
effect keyed on `session?.started_at`). It computes
`elapsed = Math.floor((Date.now() - started_at) / 1000)`, stores it with
`setElapsedTime`, and at `elapsed >= 3600` calls `endSession()`.

The `endSession` it calls is the closure created in the render during which
the effect ran; that closure's `elapsedTime` is the state value of that
render (`capturedElapsed`), not the value just computed — the interval is
installed once (its dependency `session?.started_at` never changes again)
and never sees later renders. When the view has been open since the session
loaded, `capturedElapsed = 0`.

Returns the updated database and the elapsed value the tick displayed. -/
def timerTick (capturedElapsed : Nat) (startedAtMs nowMs : Nat)
    (sessionId : SessionId) (db : DB) : DB × Nat :=
  let elapsed := (nowMs - startedAtMs) / 1000
  if elapsed ≥ 3600 then
    (endSession capturedElapsed nowMs sessionId db, elapsed)
  else
    (db, elapsed)

/-! ## Statistics Aggregator (`update_app_stats` in the migrations) -/

/-- Rounding performed by the `::DECIMAL(3,2)` cast: round to two decimal
places, halves away from zero (ratings are nonnegative, so half-up). -/
def decimal3_2 (q : ℚ) : ℚ :=
  ((q * 100 + 1 / 2).floor : ℚ) / 100

/-- `update_app_stats()`: a trigger function running
`UPDATE app_stats SET
   total_sessions = (SELECT COUNT(*) FROM sessions WHERE status='completed'),
   average_rating = COALESCE((SELECT AVG(rating)::DECIMAL(3,2) FROM ratings), 0),
   updated_at = now()`.
`AVG` over zero rows is NULL, so `COALESCE` yields 0 with no ratings. The
new values are recomputed from `sessions` and `ratings`; the previous
`app_stats` contents are never read. -/
def update_app_stats (db : DB) : DB :=
  { db with
    app_stats :=
      { total_sessions :=
          (db.sessions.filter (fun s => s.status = .completed)).length
        average_rating :=
          if db.ratings.isEmpty then 0
          else
            decimal3_2
              (((db.ratings.map Rating.rating).sum : ℚ) / db.ratings.length) } }

/-! ## Ratings (`submitRating` in the Session view, constraints and RLS from
the migrations) -/

/-- The RLS `WITH CHECK` of policy "Students can rate their sessions":
`EXISTS (SELECT 1 FROM profiles WHERE id = student_id AND user_id =
auth.uid())` — the inserted `student_id` must be the caller's own profile.
Nothing relates it to the session's `student_id`, and no role is checked. -/
def ratingsInsertCheck (callerProfile : Profile) (r : Rating) : Bool :=
  r.student_id = callerProfile.id

/-- The datastore's handling of the `INSERT INTO ratings` issued by
`submitRating({ session_id, student_id: profile.id, teacher_id, rating,
comment })`: the RLS with-check, the `session_id` foreign key, the
`UNIQUE (session_id)` constraint and the `CHECK (rating >= 1 AND
rating <= 5)` constraint must all pass, otherwise the insert fails and the
table is unchanged. -/
def insertRating (callerProfile : Profile) (r : Rating) (db : DB) :
    Except DbError DB :=
  if ¬ ratingsInsertCheck callerProfile r then
    .error .rlsViolation
  else if ¬ db.sessions.any (fun s => s.id = r.session_id) then
    .error .fkViolation
  else if db.ratings.any (fun q => q.session_id = r.session_id) then
    .error .uniqueViolation
  else if ¬ (1 ≤ r.rating ∧ r.rating ≤ 5) then
    .error .checkViolation
  else
    .ok { db with ratings := db.ratings ++ [r] }

/-! ## Signup trigger (`handle_new_user`, latest version appended to
TeacherDashboard.tsx) -/

/-- The role-validation logic of `handle_new_user`:
`requested_role := COALESCE(NEW.raw_user_meta_data->>'role', 'student');
 IF requested_role = 'teacher' THEN valid_role := 'teacher'
 ELSE valid_role := 'student' END IF`. -/
def valid_role (metaRole : Option String) : Role :=
  let requested_role := metaRole.getD "student"
  if requested_role = "teacher" then .teacher else .student

/-- `handle_new_user` (the version validating client metadata): computes
`valid_role` as above, inserts one `profiles` row carrying it (with
`full_name = COALESCE(meta->>'full_name', email)` and the metadata avatar)
and one `user_roles` row carrying the same role. -/
def handle_new_user (newUserId : UserId) (freshProfileId : ProfileId)
    (metaRole metaFullName metaAvatar : Option String) (email : String)
    (db : DB) : DB :=
  let role := valid_role metaRole
  { db with
    profiles := db.profiles ++
      [{ id := freshProfileId, user_id := newUserId, role := role,
         full_name := metaFullName.getD email, avatar_url := metaAvatar,
         is_verified := false }]
    user_roles := db.user_roles ++ [{ user_id := newUserId, role := role }] }

/-! ## Derived notions used by the statements -/

/-- Per-teacher uniqueness of availability rows, the invariant enforced by
`UNIQUE (teacher_id)` on `teacher_availability` (every row of the table is
an open advertisement as published by the dashboard: `is_available` is set
to `true` on every insert and rows are removed, never flipped). -/
abbrev atMostOneAdPerTeacher (db : DB) : Prop :=
  db.teacher_availability.Pairwise (fun a b => a.teacher_id ≠ b.teacher_id)

/-- The ratings table never holds two rows for one session (consequence of
`UNIQUE (session_id)` that makes the average count one contribution per
session). -/
abbrev ratingsUniquePerSession (db : DB) : Prop :=
  (db.ratings.map Rating.session_id).Nodup

/-- Whether a fallible datastore write went through. -/
def dbWriteSucceeds (r : Except DbError DB) : Bool :=
  match r with
  | .ok _ => true
  | .error _ => false

/-- The operations that touch the availability registry, for stating the
per-teacher invariant over arbitrary operation sequences. -/
inductive RegistryOp where
  | pub (freshId : Nat) (teacherId : ProfileId) (subjectId : SubjectId)
      (topicId : Option TopicId)
  | wd (teacherId : ProfileId)
  | cl (profile : Profile) (teacher : TeacherSnapshot) (nowMs : Nat)
      (freshId : SessionId)
deriving Repr

/-- Effect of one registry operation on the database; a rejected publish
leaves the database unchanged. -/
def applyRegistryOp (op : RegistryOp) (db : DB) : DB :=
  match op with
  | .pub f t s top =>
    match publish f t s top db with
    | .ok db' => db'
    | .error _ => db
  | .wd t => withdraw t db
  | .cl p sn n f => (handleConnectToTeacher p sn n f db).1

/-- Effect of a sequence of registry operations, applied left to right. -/
def applyRegistryOps (ops : List RegistryOp) (db : DB) : DB :=
  ops.foldl (fun db op => applyRegistryOp op db) db

/-! ## Concrete fixtures -/

/-- Initial singleton `app_stats` row inserted by the migration. -/
def stats0 : AppStats := { total_sessions := 0, average_rating := 0 }

/-- A student profile. -/
def studentS1 : Profile :=
  { id := 1, user_id := 101, role := .student, full_name := "S1",
    avatar_url := none, is_verified := false }

/-- A second student profile. -/
def studentS2 : Profile :=
  { id := 2, user_id := 102, role := .student, full_name := "S2",
    avatar_url := none, is_verified := false }

/-- A teacher profile. -/
def teacherT : Profile :=
  { id := 3, user_id := 103, role := .teacher, full_name := "T",
    avatar_url := none, is_verified := true }

/-- Teacher T's open advertisement (subject 10, no topic). -/
def adT : Availability :=
  { id := 50, teacher_id := 3, subject_id := 10, topic_id := none,
    is_available := true }

/-- The snapshot of `adT` that `fetchAvailableTeachers` hands to
`handleConnectToTeacher`. -/
def snapT : TeacherSnapshot :=
  { teacher_profile_id := 3, subject_id := 10, topic_id := none }

/-- State with teacher T's advertisement open and no sessions. -/
def dbOpenAd : DB :=
  { profiles := [studentS1, studentS2, teacherT], user_roles := [],
    teacher_availability := [adT], sessions := [], ratings := [],
    app_stats := stats0 }

/-- State where the advertisement is already gone (claimed or withdrawn). -/
def dbNoAd : DB :=
  { profiles := [studentS1, studentS2, teacherT], user_roles := [],
    teacher_availability := [], sessions := [], ratings := [],
    app_stats := stats0 }

/-- An active session between student S1 and teacher T that started at
wall-clock 0. -/
def activeSession : Session :=
  { id := 70, student_id := 1, teacher_id := 3, subject_id := 10,
    topic_id := none, status := .active, started_at := some 0,
    ended_at := none, duration_minutes := none }

/-- State holding just the active session. -/
def dbActive : DB :=
  { profiles := [studentS1, studentS2, teacherT], user_roles := [],
    teacher_availability := [], sessions := [activeSession], ratings := [],
    app_stats := stats0 }

/-- A completed session, for statistics fixtures. -/
def completedSession (sid : SessionId) : Session :=
  { id := sid, student_id := 1, teacher_id := 3, subject_id := 10,
    topic_id := none, status := .completed, started_at := some 0,
    ended_at := some 3600000, duration_minutes := some 60 }

/-- A rating row with the given id, session and score. -/
def ratingRow (rid : Nat) (sid : SessionId) (score : Int) : Rating :=
  { id := rid, session_id := sid, student_id := 1, teacher_id := 3,
    rating := score, comment := none }

/-- The statistics test vector of the claim: sessions with statuses
{completed, completed, cancelled, active} and ratings {5, 3}; the stored
stats row holds stale values that a full recomputation must ignore. -/
def dbVector : DB :=
  { profiles := [studentS1, studentS2, teacherT], user_roles := [],
    teacher_availability := []
    sessions :=
      [completedSession 81, completedSession 82,
       { completedSession 83 with status := .cancelled },
       { completedSession 84 with status := .active }]
    ratings := [ratingRow 91 81 5, ratingRow 92 82 3]
    app_stats := { total_sessions := 99, average_rating := 1 } }

/-- Three ratings {5, 4, 4} whose exact mean 13/3 is not representable in
`DECIMAL(3,2)`. -/
def dbThreeRatings : DB :=
  { dbVector with
    sessions := [completedSession 81, completedSession 82, completedSession 83]
    ratings := [ratingRow 91 81 5, ratingRow 92 82 4, ratingRow 93 83 4] }

/-! ## Theorems -/

/-- Claim C1 (code bug): two `claim` invocations racing on the same open
advertisement both took their snapshot from `dbOpenAd` while the
advertisement was open; interleaving their commits, both return a Session
(never `AlreadyClaimed`, an outcome the code cannot produce) and two
Session rows for teacher T remain — and because the DELETE policy only
lets the owning teacher remove availability rows, the students' deletes
affect zero rows and the advertisement is still open afterwards. The claim
requires exactly one winner, N−1 `AlreadyClaimed` losers, one Session row
and zero open advertisements. -/
theorem claim_race_creates_two_sessions :
    (handleConnectToTeacher studentS1 snapT 5000 71 dbOpenAd).2 = some 71 ∧
    (handleConnectToTeacher studentS2 snapT 5000 72
        (handleConnectToTeacher studentS1 snapT 5000 71 dbOpenAd).1).2 =
      some 72 ∧
    ((handleConnectToTeacher studentS2 snapT 5000 72
        (handleConnectToTeacher studentS1 snapT 5000 71 dbOpenAd).1).1).sessions.length
      = 2 ∧
    ((handleConnectToTeacher studentS2 snapT 5000 72
        (handleConnectToTeacher studentS1 snapT 5000 71 dbOpenAd).1).1).teacher_availability
      = [adT] := by
  decide

/-- Claim C2 (code bug): invoked on a database holding no open advertisement
at all (`dbNoAd`), `handleConnectToTeacher` performs no re-verification and
still creates an active Session from the caller's stale snapshot instead of
failing with `AlreadyClaimed`. -/
theorem claim_without_open_ad_still_creates_session :
    (handleConnectToTeacher studentS1 snapT 9000 73 dbNoAd).2 = some 73 ∧
    (handleConnectToTeacher studentS1 snapT 9000 73 dbNoAd).1.sessions =
      [{ id := 73, student_id := 1, teacher_id := 3, subject_id := 10,
         topic_id := none, status := .active, started_at := some 9000,
         ended_at := none, duration_minutes := none }] := by
  decide

/-- Claim C3 (code bug): a second completion of an already-completed session
is not a no-op — the unguarded `UPDATE ... WHERE id = session.id` overwrites
`ended_at` and `duration_minutes`, so completing at elapsed 125 s and again
at elapsed 200 s stores two different durations (2, then 3) instead of
keeping one consistent value. -/
theorem endSession_second_invocation_overwrites :
    (endSession 125 125000 70 dbActive).sessions.map Session.duration_minutes
      = [some 2] ∧
    (endSession 200 200000 70
        (endSession 125 125000 70 dbActive)).sessions.map
        Session.duration_minutes
      = [some 3] ∧
    endSession 200 200000 70 (endSession 125 125000 70 dbActive)
      ≠ endSession 125 125000 70 dbActive := by
  decide

/-- Claim C4 (code bug): manually ending at T + 125 s does store
`duration_minutes = 2`, but the one-hour-cap path does not store 60: the
timer invokes the `endSession` closure created when the interval was
installed, whose captured `elapsedTime` is 0 for a view open since the
session started, so the forced completion at elapsed 3600 s stores
`duration_minutes = 0`. -/
theorem timer_cap_completion_stores_zero_duration :
    (endSession 125 125000 70 dbActive).sessions.map Session.duration_minutes
      = [some 2] ∧
    (timerTick 0 0 3600000 70 dbActive).2 = 3600 ∧
    (timerTick 0 0 3600000 70 dbActive).1.sessions.map Session.status
      = [SessionStatus.completed] ∧
    (timerTick 0 0 3600000 70 dbActive).1.sessions.map Session.duration_minutes
      = [some 0] := by
  decide

/-- Bridging lemma: the computable `Rat.floor` agrees with the floor of the
`FloorRing` structure on ℚ. -/
theorem rat_floor_eq_int_floor (q : ℚ) : q.floor = ⌊q⌋ := by
  rw [Rat.floor_def', Rat.floor_def]

/-- Claim C5 (counterexample): with ratings {5, 4, 4} the stored
`average_rating` is the `DECIMAL(3,2)` value 4.33, not the exact mean 13/3,
so "averageRating equals the mean of all rating scores" fails as stated. -/
theorem average_rating_rounded_counterexample :
    (update_app_stats dbThreeRatings).app_stats.average_rating = 433 / 100 ∧
    (update_app_stats dbThreeRatings).app_stats.average_rating
      ≠ (13 : ℚ) / 3 := by
  have hval : (update_app_stats dbThreeRatings).app_stats.average_rating
      = decimal3_2 (((13 : ℤ) : ℚ) / ((3 : ℕ) : ℚ)) := rfl
  have harg : (((13 : ℤ) : ℚ) / ((3 : ℕ) : ℚ)) * 100 + 1 / 2
      = (2603 : ℚ) / 6 := by
    push_cast
    norm_num
  have hfloor : ((((13 : ℤ) : ℚ) / ((3 : ℕ) : ℚ)) * 100 + 1 / 2).floor
      = 433 := by
    rw [harg, rat_floor_eq_int_floor, Int.floor_eq_iff]
    constructor
    · norm_num
    · norm_num
  have hdec : decimal3_2 (((13 : ℤ) : ℚ) / ((3 : ℕ) : ℚ)) = 433 / 100 := by
    unfold decimal3_2
    rw [hfloor]
    norm_num
  refine ⟨hval.trans hdec, ?_⟩
  rw [hval, hdec]
  norm_num

/-- Claim C5 (amended): every invocation of `update_app_stats` is a full
recomputation from the source tables — its result never depends on the
previously stored statistics; `total_sessions` is the count of sessions
with status completed, and `average_rating` is the mean of all rating
scores rounded to two decimal places by the `DECIMAL(3,2)` cast (0 when no
ratings exist); on the vector of statuses {completed, completed, cancelled,
active} with ratings {5, 3} it yields total 2 and average 4.0. -/
theorem update_app_stats_full_recompute :
    (∀ (p : List Profile) (u : List UserRoleRow) (ta : List Availability)
        (ss : List Session) (rs : List Rating) (st st' : AppStats),
        (update_app_stats ⟨p, u, ta, ss, rs, st⟩).app_stats =
          (update_app_stats ⟨p, u, ta, ss, rs, st'⟩).app_stats) ∧
    (∀ db : DB, (update_app_stats db).app_stats.total_sessions =
        (db.sessions.filter (fun s => s.status = .completed)).length) ∧
    (∀ (p : List Profile) (u : List UserRoleRow) (ta : List Availability)
        (ss : List Session) (st : AppStats),
        (update_app_stats ⟨p, u, ta, ss, [], st⟩).app_stats.average_rating
          = 0) ∧
    (∀ (p : List Profile) (u : List UserRoleRow) (ta : List Availability)
        (ss : List Session) (st : AppStats) (r : Rating) (rs : List Rating),
        (update_app_stats
            ⟨p, u, ta, ss, r :: rs, st⟩).app_stats.average_rating =
          decimal3_2 ((((r :: rs).map Rating.rating).sum : ℚ) /
            (r :: rs).length)) ∧
    (update_app_stats dbVector).app_stats =
      { total_sessions := 2, average_rating := 4 } := by
  refine ⟨fun p u ta ss rs st st' => rfl, fun db => rfl,
    fun p u ta ss st => rfl, fun p u ta ss st r rs => rfl, ?_⟩
  have havg : (update_app_stats dbVector).app_stats.average_rating
      = decimal3_2 (((8 : ℤ) : ℚ) / ((2 : ℕ) : ℚ)) := rfl
  have harg : (((8 : ℤ) : ℚ) / ((2 : ℕ) : ℚ)) * 100 + 1 / 2
      = (801 : ℚ) / 2 := by
    push_cast
    norm_num
  have hfloor : ((((8 : ℤ) : ℚ) / ((2 : ℕ) : ℚ)) * 100 + 1 / 2).floor
      = 400 := by
    rw [harg, rat_floor_eq_int_floor, Int.floor_eq_iff]
    constructor
    · norm_num
    · norm_num
  have havg4 : (update_app_stats dbVector).app_stats.average_rating = 4 := by
    rw [havg]
    unfold decimal3_2
    rw [hfloor]
    norm_num
  have htot : (update_app_stats dbVector).app_stats.total_sessions = 2 := rfl
  calc (update_app_stats dbVector).app_stats
      = ⟨(update_app_stats dbVector).app_stats.total_sessions,
         (update_app_stats dbVector).app_stats.average_rating⟩ := rfl
    _ = ⟨2, 4⟩ := by rw [htot, havg4]

/-- Helper: the claim operation always reaches its insert-then-delete branch
(its inserted row's `student_id` is the caller's own profile id, so the RLS
with-check always passes) and its effect on the availability table is an
RLS-filtered delete, so the resulting availability rows are a sublist of
the original ones. -/
theorem handleConnectToTeacher_availability_sublist (p : Profile)
    (sn : TeacherSnapshot) (n f : Nat) (db : DB) :
    List.Sublist
      ((handleConnectToTeacher p sn n f db).1).teacher_availability
      db.teacher_availability := by
  simp only [handleConnectToTeacher, sessionsInsertCheck, decide_eq_true_eq,
    if_pos rfl, availabilityDeleteAs]
  exact List.filter_sublist _

/-- Helper: each registry operation preserves per-teacher uniqueness of
availability rows. -/
theorem applyRegistryOp_preserves_uniqueness (op : RegistryOp) (db : DB)
    (h : atMostOneAdPerTeacher db) :
    atMostOneAdPerTeacher (applyRegistryOp op db) := by
  cases op with
  | pub f t s top =>
    by_cases hex : db.teacher_availability.any (fun a => a.teacher_id = t)
    · simpa [applyRegistryOp, publish, hex] using h
    · simp only [applyRegistryOp, publish, hex, if_false]
      refine List.pairwise_append.mpr ⟨h, List.pairwise_singleton _ _, ?_⟩
      intro a ha b hb
      simp only [List.mem_singleton] at hb
      subst hb
      simp only [List.any_eq_true, not_exists, not_and] at hex
      intro hcontra
      exact absurd (by simpa using hcontra) (by simpa using hex a ha)
  | wd t =>
    exact List.Pairwise.sublist (List.filter_sublist _) h
  | cl p sn n f =>
    show atMostOneAdPerTeacher (handleConnectToTeacher p sn n f db).1
    exact List.Pairwise.sublist
      (handleConnectToTeacher_availability_sublist p sn n f db) h

/-- Claim C6 (amended): along every sequence of registry operations from a
state satisfying per-teacher uniqueness, at most one availability row per
teacher exists at every observation point (each prefix of the sequence is
itself a sequence); a second publish while a row for the teacher exists
never creates a duplicate — but it does not supersede the prior
advertisement either: the `UNIQUE (teacher_id)` constraint rejects it,
because the upsert's conflict target is the primary key `id`, and the
prior row remains in place. -/
theorem availability_at_most_one_per_teacher :
    (∀ (ops : List RegistryOp) (db : DB), atMostOneAdPerTeacher db →
        atMostOneAdPerTeacher (applyRegistryOps ops db)) ∧
    (∀ (f t s : Nat) (top : Option TopicId) (db : DB),
        db.teacher_availability.any (fun a => a.teacher_id = t) = true →
        publish f t s top db = .error .uniqueViolation) := by
  constructor
  · intro ops
    induction ops with
    | nil => exact fun db h => h
    | cons op rest ih =>
      intro db h
      exact ih _ (applyRegistryOp_preserves_uniqueness op db h)
  · intro f t s top db hex
    simp [publish, hex]

/-- Claim C6 (counterexample): teacher 3 has an open advertisement for
subject 10; a second publish for subject 20 does not supersede it — the
operation is rejected with a unique violation and the registry still
advertises subject 10 afterwards. -/
theorem second_publish_rejected_not_superseding :
    publish 51 3 20 none dbOpenAd = .error .uniqueViolation ∧
    applyRegistryOp (RegistryOp.pub 51 3 20 none) dbOpenAd = dbOpenAd ∧
    dbOpenAd.teacher_availability.map Availability.subject_id = [10] :=
  ⟨rfl, rfl, rfl⟩

/-- Witness for the amended C6 theorem at concrete inputs: withdrawing
teacher 3's row and then republishing preserves per-teacher uniqueness,
and a publish for teacher 3 while `dbOpenAd` still holds their row is
rejected. -/
theorem availability_at_most_one_per_teacher_witness :
    atMostOneAdPerTeacher
      (applyRegistryOps
        [RegistryOp.wd 3, RegistryOp.pub 52 3 20 none] dbOpenAd) ∧
    publish 53 3 20 none dbOpenAd = .error .uniqueViolation :=
  ⟨availability_at_most_one_per_teacher.1 _ dbOpenAd (by decide),
   availability_at_most_one_per_teacher.2 53 3 20 none dbOpenAd (by decide)⟩

/-- Claim C7 (amended): a rating insert for a session that already carries a
rating is always rejected; a successful insert requires the author to be
the rating row's own student (acting as themselves), the referenced session
to exist, and an integer score in [1,5], and appends exactly that row; and
successful inserts preserve at-most-one-rating-per-session, so the average
reflects at most one contribution per session. What the storage rules do
not require is that the author be that session's student. -/
theorem rating_created_once_per_session :
    (∀ (c : Profile) (r : Rating) (db : DB),
        db.ratings.any (fun q => q.session_id = r.session_id) = true →
        dbWriteSucceeds (insertRating c r db) = false) ∧
    (∀ (c : Profile) (r : Rating) (db db' : DB),
        insertRating c r db = .ok db' →
        r.student_id = c.id ∧
        db.sessions.any (fun s => s.id = r.session_id) = true ∧
        1 ≤ r.rating ∧ r.rating ≤ 5 ∧
        db' = { db with ratings := db.ratings ++ [r] }) ∧
    (∀ (c : Profile) (r : Rating) (db db' : DB),
        insertRating c r db = .ok db' →
        ratingsUniquePerSession db → ratingsUniquePerSession db') := by
  have hmain : ∀ (c : Profile) (r : Rating) (db db' : DB),
      insertRating c r db = .ok db' →
      r.student_id = c.id ∧
      db.sessions.any (fun s => s.id = r.session_id) = true ∧
      db.ratings.any (fun q => q.session_id = r.session_id) = false ∧
      1 ≤ r.rating ∧ r.rating ≤ 5 ∧
      db' = { db with ratings := db.ratings ++ [r] } := by
    intro c r db db' hok
    simp only [insertRating] at hok
    split_ifs at hok with h1 h2 h3 h4
    · have hc' : r.student_id = c.id := by
        simpa [ratingsInsertCheck] using h1
      refine ⟨hc', h2, ?_, h4.1, h4.2, (Except.ok.inj hok).symm⟩
      exact Bool.eq_false_iff.mpr h3
  refine ⟨?_, ?_, ?_⟩
  · intro c r db hdup
    simp only [insertRating]
    split_ifs <;> rfl
  · intro c r db db' hok
    obtain ⟨ha, hb, _, hd, he, hf⟩ := hmain c r db db' hok
    exact ⟨ha, hb, hd, he, hf⟩
  · intro c r db db' hok hnd
    obtain ⟨_, _, hno, _, _, hdb'⟩ := hmain c r db db' hok
    rw [hdb']
    show ((db.ratings ++ [r]).map Rating.session_id).Nodup
    rw [List.map_append]
    refine List.Nodup.append hnd (List.nodup_singleton _) ?_
    intro x hx hx'
    simp only [List.map_cons, List.map_nil, List.mem_singleton] at hx'
    subst hx'
    obtain ⟨q, hq, hqe⟩ := List.mem_map.mp hx
    have : db.ratings.any (fun q => q.session_id = r.session_id) = true := by
      rw [List.any_eq_true]
      exact ⟨q, hq, by simp [hqe]⟩
    simp [this] at hno

/-- Claim C7 (counterexample): session 70 belongs to student S1 (profile 1),
yet student S2 (profile 2), acting as themselves, successfully creates a
rating for it — every storage check passes, so a rating is not only
creatable by the session's student. -/
theorem rating_by_other_student_accepted :
    activeSession.student_id = 1 ∧ studentS2.id = 2 ∧
    insertRating studentS2
      { id := 95, session_id := 70, student_id := 2, teacher_id := 3,
        rating := 5, comment := none } dbActive
      = .ok { dbActive with ratings :=
          [{ id := 95, session_id := 70, student_id := 2, teacher_id := 3,
             rating := 5, comment := none }] } :=
  ⟨rfl, rfl, rfl⟩

/-- Witness for the amended C7 theorem at concrete inputs: with session 70
already rated, a second submission does not go through; a successful insert
on the unrated state records the caller as the row's student and keeps
session ids distinct. -/
theorem rating_created_once_per_session_witness :
    dbWriteSucceeds (insertRating studentS1 (ratingRow 96 70 4)
      { dbActive with ratings := [ratingRow 95 70 5] }) = false ∧
    (ratingRow 95 70 5).student_id = studentS1.id ∧
    ratingsUniquePerSession
      { dbActive with ratings := [ratingRow 95 70 5] } :=
  ⟨rating_created_once_per_session.1 studentS1 (ratingRow 96 70 4)
      { dbActive with ratings := [ratingRow 95 70 5] } (by decide),
   (rating_created_once_per_session.2.1 studentS1 (ratingRow 95 70 5) dbActive
      { dbActive with ratings := [ratingRow 95 70 5] } rfl).1,
   rating_created_once_per_session.2.2 studentS1 (ratingRow 95 70 5) dbActive
      { dbActive with ratings := [ratingRow 95 70 5] } rfl (by decide)⟩

/-- Claim C8 (code bug): the sessions insert policy checks only that
`student_id` equals the caller's profile id, never the caller's role, so
teacher T (role `teacher`) invoking the claim operation succeeds — a
Session naming the teacher as its student is created instead of the
operation failing with `NotAStudent` and creating nothing. -/
theorem teacher_claim_creates_session :
    teacherT.role = Role.teacher ∧
    (handleConnectToTeacher teacherT snapT 5000 74 dbOpenAd).2 = some 74 ∧
    (handleConnectToTeacher teacherT snapT 5000 74
        dbOpenAd).1.sessions.map Session.student_id = [3] := by
  decide

/-- Claim C9 (confirmed): withdraw is idempotent — applying it twice leaves
the same state as applying it once; it removes every availability row of
the teacher; and when the teacher has no row it is a no-op, not an
error. -/
theorem withdraw_idempotent_and_noop :
    (∀ (t : ProfileId) (db : DB), withdraw t (withdraw t db) = withdraw t db) ∧
    (∀ (t : ProfileId) (db : DB),
        ∀ a ∈ (withdraw t db).teacher_availability, a.teacher_id ≠ t) ∧
    (∀ (t : ProfileId) (db : DB),
        (∀ a ∈ db.teacher_availability, a.teacher_id ≠ t) →
        withdraw t db = db) := by
  refine ⟨?_, ?_, ?_⟩
  · intro t db
    simp [withdraw, List.filter_filter]
  · intro t db a ha
    have := (List.mem_filter.mp ha).2
    simpa using this
  · intro t db h
    show { db with teacher_availability :=
        db.teacher_availability.filter (fun a => a.teacher_id ≠ t) } = db
    have : db.teacher_availability.filter (fun a => a.teacher_id ≠ t)
        = db.teacher_availability := by
      rw [List.filter_eq_self]
      intro a ha
      simpa using h a ha
    rw [this]

/-- Witness for the C9 theorem at a concrete input: teacher 3 has no
availability row in `dbNoAd`, and withdrawing there changes nothing. -/
theorem withdraw_idempotent_and_noop_witness :
    withdraw 3 dbNoAd = dbNoAd :=
  withdraw_idempotent_and_noop.2.2 3 dbNoAd (by decide)

/-- Claim C10 (confirmed): `handle_new_user` (the metadata-validating
version) assigns role teacher exactly when the client metadata role is the
string "teacher" and student for every other value, including an absent
one; it inserts exactly one profiles row and one user_roles row, both
carrying that validated role. -/
theorem handle_new_user_role_validation :
    (∀ m : Option String,
        valid_role m = Role.teacher ↔ m = some ("teacher")) ∧
    (∀ (uid pid : Nat) (m fn av : Option String) (em : String) (db : DB),
        (handle_new_user uid pid m fn av em db).profiles =
          db.profiles ++
            [{ id := pid, user_id := uid, role := valid_role m,
               full_name := fn.getD em, avatar_url := av,
               is_verified := false }] ∧
        (handle_new_user uid pid m fn av em db).user_roles =
          db.user_roles ++ [{ user_id := uid, role := valid_role m }]) := by
  constructor
  · intro m
    cases m with
    | none => simp [valid_role]
    | some s =>
      by_cases h : s = "teacher"
      · subst h
        simp [valid_role]
      · simp [valid_role, h]
  · intro uid pid m fn av em db
    exact ⟨rfl, rfl⟩

end ClasifyConnect
